import Mathlib

/-!
# Route Analytics Engine — verification of the ElevateRoute pipeline

Shallow embedding of the route-to-statistics pipeline of
`src/services/routeService.ts` and the safety-score helper of
`src/components/SafetyAlerts.tsx`.  JavaScript numbers are modelled by `ℚ`
(exact arithmetic); the external Google Maps services (directions, elevation,
spherical geometry) are modelled as explicit function parameters, since their
code is not part of the repository.
-/

/-- A raw geographic coordinate (`google.maps.LatLng` as a plain value). -/
structure Coordinate where
  lat : ℚ
  lng : ℚ
deriving DecidableEq

instance : Inhabited Coordinate := ⟨⟨0, 0⟩⟩

/-- One element of the elevation provider's result set
(`google.maps.ElevationResult`): a location paired with its elevation. -/
structure ElevationResult where
  location : Coordinate
  elevation : ℚ
deriving DecidableEq

instance : Inhabited ElevationResult := ⟨⟨default, 0⟩⟩

/-- `RoutePoint` from `src/types/index.ts`. -/
structure RoutePoint where
  lat : ℚ
  lng : ℚ
  elevation : ℚ
  distance : ℚ
deriving DecidableEq

instance : Inhabited RoutePoint := ⟨⟨0, 0, 0, 0⟩⟩

/-- `RouteStats` from `src/types/index.ts`. -/
structure RouteStats where
  totalDistance : ℚ
  totalElevationGain : ℚ
  totalElevationLoss : ℚ
  maxElevation : ℚ
  minElevation : ℚ
  maxGrade : ℚ
  minGrade : ℚ
  averageGrade : ℚ
  estimatedTime : ℚ
deriving DecidableEq

/-- JavaScript `Math.round`: rounds to the nearest integer, halves toward
positive infinity, i.e. `⌊x + 1/2⌋`. -/
def jsRound (q : ℚ) : ℤ := Int.floor (q + 1 / 2)

/-- The sampled index `Math.round(i * interval)` of `sampleRoutePoints`, where
`interval = (path.length - 1) / (sampleCount - 1)`. -/
def sampleIndex (L N i : ℕ) : ℕ :=
  (jsRound ((i : ℚ) * (((L : ℚ) - 1) / ((N : ℚ) - 1)))).toNat

/-- `RouteService.sampleRoutePoints` (routeService.ts lines 84–101): if the
path already fits in the sample budget it is returned unchanged, otherwise
`sampleCount` indices are taken at index-uniform spacing. -/
def sampleRoutePoints (path : List Coordinate) (sampleCount : ℕ) : List Coordinate :=
  if path.length ≤ sampleCount then path
  else (List.range sampleCount).map
    (fun i => path.getD (sampleIndex path.length sampleCount i) default)

/-- The mutable accumulator of the `for` loop of
`RouteService.calculateRouteStats` (routeService.ts lines 161–195). -/
structure StatsAcc where
  elevationGain : ℚ
  elevationLoss : ℚ
  maxElevation : ℚ
  minElevation : ℚ
  maxGrade : ℚ
  minGrade : ℚ
  totalGrade : ℚ
  gradeCount : ℕ

/-- One iteration of the statistics loop: update elevation extremes,
gain/loss, and — only when the segment has positive distance change — the
grade statistics. -/
def statsStep (previous current : RoutePoint) (acc : StatsAcc) : StatsAcc :=
  let maxElevation := max acc.maxElevation current.elevation
  let minElevation := min acc.minElevation current.elevation
  let elevationChange := current.elevation - previous.elevation
  let elevationGain :=
    if elevationChange > 0 then acc.elevationGain + elevationChange else acc.elevationGain
  let elevationLoss :=
    if elevationChange > 0 then acc.elevationLoss else acc.elevationLoss + |elevationChange|
  let distanceChange := current.distance - previous.distance
  if distanceChange > 0 then
    let grade := elevationChange / distanceChange * 100
    { elevationGain, elevationLoss, maxElevation, minElevation,
      maxGrade := max acc.maxGrade grade,
      minGrade := min acc.minGrade grade,
      totalGrade := acc.totalGrade + |grade|,
      gradeCount := acc.gradeCount + 1 }
  else
    { elevationGain, elevationLoss, maxElevation, minElevation,
      maxGrade := acc.maxGrade, minGrade := acc.minGrade,
      totalGrade := acc.totalGrade, gradeCount := acc.gradeCount }

/-- The statistics loop over the points after the first, carrying the
previous point and the accumulator. -/
def statsLoop (previous : RoutePoint) (acc : StatsAcc) : List RoutePoint → StatsAcc
  | [] => acc
  | current :: rest => statsLoop current (statsStep previous current acc) rest

/-- `RouteService.calculateRouteStats` (routeService.ts lines 146–216).
Empty input yields the all-zero stats; otherwise a single pass accumulates
gain/loss, extremes and grade statistics, then derives totals, the average
grade and the Naismith-style time estimate. -/
def calculateRouteStats (points : List RoutePoint) : RouteStats :=
  match points with
  | [] =>
    { totalDistance := 0, totalElevationGain := 0, totalElevationLoss := 0,
      maxElevation := 0, minElevation := 0, maxGrade := 0, minGrade := 0,
      averageGrade := 0, estimatedTime := 0 }
  | p :: rest =>
    let acc := statsLoop p
      { elevationGain := 0, elevationLoss := 0,
        maxElevation := p.elevation, minElevation := p.elevation,
        maxGrade := 0, minGrade := 0, totalGrade := 0, gradeCount := 0 } rest
    let totalDistance := (rest.getLastD p).distance
    let averageGrade := if acc.gradeCount > 0 then acc.totalGrade / (acc.gradeCount : ℚ) else 0
    let baseTime := totalDistance / 1000 * 15
    let elevationTime := acc.elevationGain / 100 * 10
    { totalDistance,
      totalElevationGain := acc.elevationGain,
      totalElevationLoss := acc.elevationLoss,
      maxElevation := acc.maxElevation,
      minElevation := acc.minElevation,
      maxGrade := acc.maxGrade,
      minGrade := acc.minGrade,
      averageGrade,
      estimatedTime := baseTime + elevationTime }

/-- The four-tier general difficulty rating. -/
inductive Difficulty where
  | easy
  | moderate
  | hard
  | extreme
deriving DecidableEq

/-- The ordering of difficulty tiers: easy < moderate < hard < extreme. -/
def Difficulty.rank : Difficulty → ℕ
  | .easy => 0
  | .moderate => 1
  | .hard => 2
  | .extreme => 3

/-- `RouteService.calculateDifficulty` (routeService.ts lines 329–356):
additive scoring over distance (km), elevation gain and the absolute value of
the max grade, then thresholding the total score. -/
def calculateDifficulty (stats : RouteStats) : Difficulty :=
  let distance := stats.totalDistance / 1000
  let elevationGain := stats.totalElevationGain
  let maxGrade := |stats.maxGrade|
  let score : ℕ :=
    (if distance > 20 then 3 else if distance > 10 then 2 else if distance > 5 then 1 else 0)
    + (if elevationGain > 1000 then 3
       else if elevationGain > 500 then 2
       else if elevationGain > 200 then 1 else 0)
    + (if maxGrade > 20 then 3 else if maxGrade > 15 then 2 else if maxGrade > 10 then 1 else 0)
  if score ≥ 7 then .extreme
  else if score ≥ 5 then .hard
  else if score ≥ 3 then .moderate
  else .easy

/-- `getSafetyScore` from `src/components/SafetyAlerts.tsx` lines 68–82:
start at 100, subtract tiered penalties for max grade, elevation gain and
distance, clamp at 0. -/
def getSafetyScore (stats : RouteStats) : ℚ :=
  let score : ℚ := 100
  let score := score -
    (if stats.maxGrade > 20 then 20
     else if stats.maxGrade > 15 then 15
     else if stats.maxGrade > 10 then 10 else 0)
  let score := score -
    (if stats.totalElevationGain > 1000 then 15
     else if stats.totalElevationGain > 500 then 10 else 0)
  let score := score -
    (if stats.totalDistance > 20000 then 10
     else if stats.totalDistance > 10000 then 5 else 0)
  max score 0

/-- The all-zero `RouteStats`. -/
def zeroStats : RouteStats :=
  { totalDistance := 0, totalElevationGain := 0, totalElevationLoss := 0,
    maxElevation := 0, minElevation := 0, maxGrade := 0, minGrade := 0,
    averageGrade := 0, estimatedTime := 0 }

/-- The concrete scenario statistics of spec §8: 25 km, 1200 m gain,
22 % max grade. -/
def extremeScenarioStats : RouteStats :=
  { totalDistance := 25000, totalElevationGain := 1200, totalElevationLoss := 0,
    maxElevation := 0, minElevation := 0, maxGrade := 22, minGrade := 0,
    averageGrade := 0, estimatedTime := 0 }

/-- Stats differing from the all-zero stats only in a steeply negative max
grade. -/
def steepDescentStats : RouteStats := { zeroStats with maxGrade := -25 }

/-- Stats differing from the all-zero stats only in a mildly negative max
grade. -/
def mildDescentStats : RouteStats := { zeroStats with maxGrade := -5 }

/-- The steep-section predicate of `getTrafficInfo` (routeService.ts lines
367–374) under JavaScript arithmetic.  The source computes
`Math.abs(elevationChange / distance * 100) > 15` with no zero-distance
guard; in JavaScript a nonzero value divided by zero is ±Infinity, whose
absolute value exceeds 15, while 0 / 0 is NaN and every comparison with NaN
is false — so a zero-distance segment counts as steep exactly when its
elevation change is nonzero. -/
def isSteepSegment (prevPoint point : RoutePoint) : Bool :=
  let elevationChange := point.elevation - prevPoint.elevation
  let distance := point.distance - prevPoint.distance
  if distance = 0 then decide (elevationChange ≠ 0)
  else decide (|elevationChange / distance * 100| > 15)

/-- The `routePoints.filter` of `getTrafficInfo`: every point (other than the
first) whose incoming segment is steep. -/
def steepSectionsAfter (prevPoint : RoutePoint) : List RoutePoint → List RoutePoint
  | [] => []
  | point :: rest =>
    (if isSteepSegment prevPoint point then [point] else []) ++ steepSectionsAfter point rest

/-- The steep sections of a route: the filter above, with the point at index
0 always excluded. -/
def steepSections : List RoutePoint → List RoutePoint
  | [] => []
  | p :: rest => steepSectionsAfter p rest

/-- `RouteService.getTrafficInfo` (routeService.ts lines 358–381): a
heavy-traffic alert for long routes and a steep-sections caution when more
than 5 steep segments are found. -/
def getTrafficInfo (routePoints : List RoutePoint) : List String :=
  (if routePoints.length > 50 then ["Heavy traffic expected during peak hours"] else [])
    ++ (if (steepSections routePoints).length > 5
        then ["Multiple steep sections - allow extra time"] else [])

/-- The steep-section count as the specification words it: only segments with
a nonzero distance change are examined (the computation "never divides by a
zero distance change"), and such a segment is steep when its absolute percent
grade exceeds 15.  Kept separate from `isSteepSegment`, which follows the
source, so the two can be compared. -/
def steepCountSpecAfter (prevPoint : RoutePoint) : List RoutePoint → ℕ
  | [] => 0
  | point :: rest =>
    (if point.distance - prevPoint.distance ≠ 0 ∧
        |(point.elevation - prevPoint.elevation)
          / (point.distance - prevPoint.distance) * 100| > 15
     then 1 else 0) + steepCountSpecAfter point rest

/-- The spec-worded steep-section count over a whole route. -/
def steepCountSpec : List RoutePoint → ℕ
  | [] => 0
  | p :: rest => steepCountSpecAfter p rest

/-- A two-point route whose only segment has zero distance change but a
nonzero elevation change. -/
def zeroDistancePoints : List RoutePoint := [⟨0, 0, 0, 0⟩, ⟨0, 0, 5, 0⟩]

/-- The outcome of one batched elevation request as delivered to the callback
of `ElevationService.getElevationForLocations`: a status string and a
possibly-null result array. -/
structure ElevationResponse where
  status : String
  results : Option (List ElevationResult)

/-- `RouteService.getElevationData` (routeService.ts lines 103–116), with the
external elevation service abstracted as a function from the requested
locations to its response.  The promise resolves with the provider's result
array when the status is "OK" and the results are non-null, and rejects with
an error otherwise; the result length is never compared with the input
length, and no retry is attempted. -/
def getElevationData (service : List Coordinate → ElevationResponse)
    (locations : List Coordinate) : Except String (List ElevationResult) :=
  let resp := service locations
  match resp.results with
  | some results =>
    if resp.status = "OK" then Except.ok results
    else Except.error ("Elevation request failed: " ++ resp.status)
  | none => Except.error ("Elevation request failed: " ++ resp.status)

/-- An elevation provider that answers every request with a success status
and a single-element result array. -/
def shortOkService : List Coordinate → ElevationResponse :=
  fun _ => ⟨"OK", some [⟨⟨0, 0⟩, 5⟩]⟩

/-- A batch request for two locations. -/
def twoLocations : List Coordinate := [⟨0, 0⟩, ⟨1, 1⟩]

/-- The per-segment distances of an elevation-result run: the external
great-circle distance function applied to each consecutive pair, starting
from `prev`. -/
def segDistancesAfter (dist : Coordinate → Coordinate → ℚ) (prev : ElevationResult) :
    List ElevationResult → List ℚ
  | [] => []
  | r :: rs => dist prev.location r.location :: segDistancesAfter dist r rs

/-- The per-segment distances of a whole elevation-result sequence (the
first result starts no segment). -/
def segDistances (dist : Coordinate → Coordinate → ℚ) : List ElevationResult → List ℚ
  | [] => []
  | r :: rs => segDistancesAfter dist r rs

/-- The tail of the `forEach` of `createRoutePoints`: each later result adds
the distance of its incoming segment to the running total and records the
new total on its point. -/
def createRoutePointsAfter (dist : Coordinate → Coordinate → ℚ) (prev : ElevationResult)
    (totalDistance : ℚ) : List ElevationResult → List RoutePoint
  | [] => []
  | r :: rs =>
    let d := totalDistance + dist prev.location r.location
    ⟨r.location.lat, r.location.lng, r.elevation, d⟩ :: createRoutePointsAfter dist r d rs

/-- `RouteService.createRoutePoints` (routeService.ts lines 118–144), with
`google.maps.geometry.spherical.computeDistanceBetween` abstracted as the
function `dist` (it is external library code; a great-circle distance is
nonnegative, which the theorems take as a hypothesis).  The source's
`fullPath` parameter is unused there and omitted here. -/
def createRoutePoints (dist : Coordinate → Coordinate → ℚ) :
    List ElevationResult → List RoutePoint
  | [] => []
  | r :: rs =>
    ⟨r.location.lat, r.location.lng, r.elevation, 0⟩ :: createRoutePointsAfter dist r 0 rs

/-- C9: on the empty point sequence `calculateRouteStats` returns the
all-zero `RouteStats` rather than raising an error. -/
theorem calculateRouteStats_empty_all_zero :
    calculateRouteStats [] = zeroStats := rfl

/-- Across one loop iteration the difference gain − loss grows by exactly the
segment's elevation change: the branch adds the change to the gain when it is
positive and its absolute value (= its negation) to the loss otherwise. -/
lemma statsStep_gain_sub_loss (previous current : RoutePoint) (acc : StatsAcc) :
    (statsStep previous current acc).elevationGain
        - (statsStep previous current acc).elevationLoss
      = acc.elevationGain - acc.elevationLoss
          + (current.elevation - previous.elevation) := by
  simp only [statsStep]
  split_ifs with he hd hd <;> dsimp only <;>
    first
      | ring1
      | (rw [abs_of_nonpos (le_of_not_lt hd)]; ring1)

/-- Telescoping the previous lemma over the whole loop: gain − loss moves by
the elevation difference between the last processed point and the point the
loop started from. -/
lemma statsLoop_gain_sub_loss :
    ∀ (rest : List RoutePoint) (previous : RoutePoint) (acc : StatsAcc),
      (statsLoop previous acc rest).elevationGain
          - (statsLoop previous acc rest).elevationLoss
        = acc.elevationGain - acc.elevationLoss
            + ((rest.getLastD previous).elevation - previous.elevation)
  | [], previous, acc => by simp [statsLoop]
  | current :: rest, previous, acc => by
    rw [statsLoop, statsLoop_gain_sub_loss rest current (statsStep previous current acc),
      statsStep_gain_sub_loss, List.getLastD_cons]
    ring

/-- C3: for every non-empty point sequence, total elevation gain minus total
elevation loss equals the elevation of the last point minus the elevation of
the first point (round-trip conservation law). -/
theorem calculateRouteStats_conservation (p : RoutePoint) (rest : List RoutePoint) :
    (calculateRouteStats (p :: rest)).totalElevationGain
        - (calculateRouteStats (p :: rest)).totalElevationLoss
      = ((p :: rest).getLast (List.cons_ne_nil p rest)).elevation - p.elevation := by
  simp only [calculateRouteStats, List.getLast_eq_getLastD, List.getLastD_cons]
  rw [statsLoop_gain_sub_loss]
  ring

/-- A loop iteration over a segment with no positive distance change leaves
all four grade statistics untouched. -/
lemma statsStep_grade_frozen (previous current : RoutePoint) (acc : StatsAcc)
    (h : ¬ current.distance - previous.distance > 0) :
    (statsStep previous current acc).maxGrade = acc.maxGrade ∧
      (statsStep previous current acc).minGrade = acc.minGrade ∧
      (statsStep previous current acc).gradeCount = acc.gradeCount := by
  simp only [statsStep]
  split_ifs <;> simp_all

/-- Over a run of points whose cumulative distances are all equal, the loop
never enters the grade branch, so the grade statistics keep their seeds. -/
lemma statsLoop_grade_frozen :
    ∀ (rest : List RoutePoint) (previous : RoutePoint) (acc : StatsAcc),
      List.Chain' (fun a b => a.distance = b.distance) (previous :: rest) →
      (statsLoop previous acc rest).maxGrade = acc.maxGrade ∧
        (statsLoop previous acc rest).minGrade = acc.minGrade ∧
        (statsLoop previous acc rest).gradeCount = acc.gradeCount
  | [], previous, acc, _ => ⟨rfl, rfl, rfl⟩
  | current :: rest, previous, acc, h => by
    rw [List.chain'_cons] at h
    have hfrozen := statsStep_grade_frozen previous current acc (by rw [h.1]; simp)
    have hrec := statsLoop_grade_frozen rest current (statsStep previous current acc) h.2
    rw [statsLoop]
    exact ⟨hrec.1.trans hfrozen.1, hrec.2.1.trans hfrozen.2.1, hrec.2.2.trans hfrozen.2.2⟩

/-- C8: on a non-empty point sequence in which every consecutive pair has
zero distance change, `calculateRouteStats` returns averageGrade, maxGrade
and minGrade all equal to 0 (well-defined values, no division by zero). -/
theorem calculateRouteStats_stationary (p : RoutePoint) (rest : List RoutePoint)
    (h : List.Chain' (fun a b => a.distance = b.distance) (p :: rest)) :
    (calculateRouteStats (p :: rest)).averageGrade = 0 ∧
      (calculateRouteStats (p :: rest)).maxGrade = 0 ∧
      (calculateRouteStats (p :: rest)).minGrade = 0 := by
  have hfrozen := statsLoop_grade_frozen rest p
    { elevationGain := 0, elevationLoss := 0,
      maxElevation := p.elevation, minElevation := p.elevation,
      maxGrade := 0, minGrade := 0, totalGrade := 0, gradeCount := 0 } h
  simp only [calculateRouteStats]
  refine ⟨?_, hfrozen.1, hfrozen.2.1⟩
  simp [hfrozen.2.2]

/-- Witness for C8 at a concrete stationary two-point route. -/
theorem calculateRouteStats_stationary_witness :
    (calculateRouteStats [⟨0, 0, 100, 0⟩, ⟨1, 1, 250, 0⟩]).averageGrade = 0 ∧
      (calculateRouteStats [⟨0, 0, 100, 0⟩, ⟨1, 1, 250, 0⟩]).maxGrade = 0 ∧
      (calculateRouteStats [⟨0, 0, 100, 0⟩, ⟨1, 1, 250, 0⟩]).minGrade = 0 :=
  calculateRouteStats_stationary ⟨0, 0, 100, 0⟩ [⟨1, 1, 250, 0⟩]
    (List.chain'_pair.mpr rfl)

/-- The maximum-grade accumulator never decreases across a loop iteration. -/
lemma statsStep_maxGrade_le (previous current : RoutePoint) (acc : StatsAcc) :
    acc.maxGrade ≤ (statsStep previous current acc).maxGrade := by
  simp only [statsStep]
  split_ifs <;> simp [le_max_left]

/-- The minimum-grade accumulator never increases across a loop iteration. -/
lemma statsStep_minGrade_ge (previous current : RoutePoint) (acc : StatsAcc) :
    (statsStep previous current acc).minGrade ≤ acc.minGrade := by
  simp only [statsStep]
  split_ifs <;> simp [min_le_left]

/-- The loop only pushes the maximum grade upward. -/
lemma statsLoop_maxGrade_le :
    ∀ (rest : List RoutePoint) (previous : RoutePoint) (acc : StatsAcc),
      acc.maxGrade ≤ (statsLoop previous acc rest).maxGrade
  | [], _, _ => le_refl _
  | current :: rest, previous, acc =>
    le_trans (statsStep_maxGrade_le previous current acc)
      (statsLoop_maxGrade_le rest current (statsStep previous current acc))

/-- The loop only pushes the minimum grade downward. -/
lemma statsLoop_minGrade_ge :
    ∀ (rest : List RoutePoint) (previous : RoutePoint) (acc : StatsAcc),
      (statsLoop previous acc rest).minGrade ≤ acc.minGrade
  | [], _, _ => le_refl _
  | current :: rest, previous, acc =>
    le_trans (statsLoop_minGrade_ge rest current (statsStep previous current acc))
      (statsStep_minGrade_ge previous current acc)

/-- One iteration over a non-rising segment keeps a zero maximum grade at
zero: the computed grade, when any, is nonpositive. -/
lemma statsStep_maxGrade_desc (previous current : RoutePoint) (acc : StatsAcc)
    (hdesc : current.elevation ≤ previous.elevation) (h0 : acc.maxGrade = 0) :
    (statsStep previous current acc).maxGrade = 0 := by
  simp only [statsStep]
  split_ifs with he hd hd <;> dsimp only <;> rw [h0] <;> try rfl
  all_goals
    refine max_eq_left ?_
    have hdiv : (current.elevation - previous.elevation)
        / (current.distance - previous.distance) ≤ 0 :=
      div_nonpos_iff.mpr (Or.inr ⟨by linarith, le_of_lt he⟩)
    linarith

/-- One iteration over a non-falling segment keeps a zero minimum grade at
zero: the computed grade, when any, is nonnegative. -/
lemma statsStep_minGrade_climb (previous current : RoutePoint) (acc : StatsAcc)
    (hclimb : previous.elevation ≤ current.elevation) (h0 : acc.minGrade = 0) :
    (statsStep previous current acc).minGrade = 0 := by
  simp only [statsStep]
  split_ifs with he hd hd <;> dsimp only <;> rw [h0] <;> try rfl
  all_goals
    refine min_eq_left ?_
    have hdiv : 0 ≤ (current.elevation - previous.elevation)
        / (current.distance - previous.distance) :=
      div_nonneg (by linarith) (le_of_lt he)
    linarith

/-- If elevation never rises along the processed run, every computed grade is
nonpositive, so a maximum-grade accumulator sitting at 0 stays at 0. -/
lemma statsLoop_maxGrade_desc :
    ∀ (rest : List RoutePoint) (previous : RoutePoint) (acc : StatsAcc),
      List.Chain' (fun a b => b.elevation ≤ a.elevation) (previous :: rest) →
      acc.maxGrade = 0 → (statsLoop previous acc rest).maxGrade = 0
  | [], _, _, _, h0 => h0
  | current :: rest, previous, acc, h, h0 => by
    rw [List.chain'_cons] at h
    rw [statsLoop]
    exact statsLoop_maxGrade_desc rest current _ h.2
      (statsStep_maxGrade_desc previous current acc h.1 h0)

/-- If elevation never falls along the processed run, every computed grade is
nonnegative, so a minimum-grade accumulator sitting at 0 stays at 0. -/
lemma statsLoop_minGrade_climb :
    ∀ (rest : List RoutePoint) (previous : RoutePoint) (acc : StatsAcc),
      List.Chain' (fun a b => a.elevation ≤ b.elevation) (previous :: rest) →
      acc.minGrade = 0 → (statsLoop previous acc rest).minGrade = 0
  | [], _, _, _, h0 => h0
  | current :: rest, previous, acc, h, h0 => by
    rw [List.chain'_cons] at h
    rw [statsLoop]
    exact statsLoop_minGrade_climb rest current _ h.2
      (statsStep_minGrade_climb previous current acc h.1 h0)

/-- C10: because both running grade extremes are seeded at 0, every non-empty
point sequence yields maxGrade ≥ 0 and minGrade ≤ 0; in particular a route
whose elevation never rises reports maxGrade = 0 and a route whose elevation
never falls reports minGrade = 0. -/
theorem calculateRouteStats_grade_seeded_at_zero (p : RoutePoint) (rest : List RoutePoint) :
    0 ≤ (calculateRouteStats (p :: rest)).maxGrade ∧
      (calculateRouteStats (p :: rest)).minGrade ≤ 0 ∧
      (List.Chain' (fun a b => b.elevation ≤ a.elevation) (p :: rest) →
        (calculateRouteStats (p :: rest)).maxGrade = 0) ∧
      (List.Chain' (fun a b => a.elevation ≤ b.elevation) (p :: rest) →
        (calculateRouteStats (p :: rest)).minGrade = 0) := by
  simp only [calculateRouteStats]
  refine ⟨statsLoop_maxGrade_le rest p _, statsLoop_minGrade_ge rest p _,
    fun h => statsLoop_maxGrade_desc rest p _ h rfl,
    fun h => statsLoop_minGrade_climb rest p _ h rfl⟩

/-- Witness for C10 at a concrete route that both never rises and never
falls, so all four conjuncts apply. -/
theorem calculateRouteStats_grade_seeded_at_zero_witness :
    0 ≤ (calculateRouteStats [⟨0, 0, 5, 0⟩, ⟨1, 1, 5, 9⟩]).maxGrade ∧
      (calculateRouteStats [⟨0, 0, 5, 0⟩, ⟨1, 1, 5, 9⟩]).minGrade ≤ 0 ∧
      (calculateRouteStats [⟨0, 0, 5, 0⟩, ⟨1, 1, 5, 9⟩]).maxGrade = 0 ∧
      (calculateRouteStats [⟨0, 0, 5, 0⟩, ⟨1, 1, 5, 9⟩]).minGrade = 0 := by
  have h := calculateRouteStats_grade_seeded_at_zero ⟨0, 0, 5, 0⟩ [⟨1, 1, 5, 9⟩]
  exact ⟨h.1, h.2.1, h.2.2.1 (List.chain'_pair.mpr (le_refl _)),
    h.2.2.2 (List.chain'_pair.mpr (le_refl _))⟩

/-- C7: a route with totalDistance 25000 m, totalElevationGain 1200 m and
maxGrade 22 % is classified `extreme` (score 3+3+3 = 9 ≥ 7) and receives
safety score 100 − 20 − 15 − 10 = 55. -/
theorem extremeScenario_difficulty_and_safety :
    calculateDifficulty extremeScenarioStats = Difficulty.extreme ∧
      getSafetyScore extremeScenarioStats = 55 := by
  constructor
  · norm_num [calculateDifficulty, extremeScenarioStats]
  · norm_num [getSafetyScore, extremeScenarioStats]

/-- A three-threshold score chain is monotone in its argument. -/
lemma scoreChain_mono (t1 t2 t3 : ℚ) {a b : ℚ} (h : a ≤ b) :
    (if a > t1 then 3 else if a > t2 then 2 else if a > t3 then 1 else 0 : ℕ)
      ≤ (if b > t1 then 3 else if b > t2 then 2 else if b > t3 then 1 else 0) := by
  split_ifs <;> first | (exfalso; linarith) | norm_num

/-- The final tier thresholds are monotone in the total score. -/
lemma rank_tier_mono {m n : ℕ} (h : m ≤ n) :
    (if m ≥ 7 then Difficulty.extreme
     else if m ≥ 5 then Difficulty.hard
     else if m ≥ 3 then Difficulty.moderate
     else Difficulty.easy).rank
      ≤ (if n ≥ 7 then Difficulty.extreme
         else if n ≥ 5 then Difficulty.hard
         else if n ≥ 3 then Difficulty.moderate
         else Difficulty.easy).rank := by
  split_ifs <;> simp [Difficulty.rank] <;> omega

/-- C4 (amended): `calculateDifficulty` is monotone in total distance, total
elevation gain and max grade, provided the smaller max grade is nonnegative
(the classifier reads `|maxGrade|`, so increasing a negative max grade can
lower the tier — see the counterexample). -/
theorem calculateDifficulty_monotone (s t : RouteStats)
    (hdist : s.totalDistance ≤ t.totalDistance)
    (hgain : s.totalElevationGain ≤ t.totalElevationGain)
    (hgrade : s.maxGrade ≤ t.maxGrade) (hpos : 0 ≤ s.maxGrade) :
    (calculateDifficulty s).rank ≤ (calculateDifficulty t).rank := by
  have habs : |s.maxGrade| ≤ |t.maxGrade| := by
    rw [abs_of_nonneg hpos, abs_of_nonneg (hpos.trans hgrade)]
    exact hgrade
  have hdistdiv : s.totalDistance / 1000 ≤ t.totalDistance / 1000 := by linarith
  simp only [calculateDifficulty]
  exact rank_tier_mono
    (add_le_add (add_le_add (scoreChain_mono 20 10 5 hdistdiv)
      (scoreChain_mono 1000 500 200 hgain)) (scoreChain_mono 20 15 10 habs))

/-- Witness for the amended C4 at concrete stats. -/
theorem calculateDifficulty_monotone_witness :
    (calculateDifficulty zeroStats).rank ≤
      (calculateDifficulty extremeScenarioStats).rank :=
  calculateDifficulty_monotone zeroStats extremeScenarioStats
    (by norm_num [zeroStats, extremeScenarioStats])
    (by norm_num [zeroStats, extremeScenarioStats])
    (by norm_num [zeroStats, extremeScenarioStats])
    (by norm_num [zeroStats])

/-- Counterexample to C4 as stated: raising `maxGrade` from −25 to −5 while
holding every other field fixed drops the difficulty tier from moderate to
easy, because the classifier scores `|maxGrade|`. -/
theorem calculateDifficulty_not_monotone_counterexample :
    steepDescentStats.maxGrade < mildDescentStats.maxGrade ∧
      steepDescentStats.totalDistance = mildDescentStats.totalDistance ∧
      steepDescentStats.totalElevationGain = mildDescentStats.totalElevationGain ∧
      calculateDifficulty steepDescentStats = Difficulty.moderate ∧
      calculateDifficulty mildDescentStats = Difficulty.easy ∧
      (calculateDifficulty mildDescentStats).rank
        < (calculateDifficulty steepDescentStats).rank := by
  refine ⟨by norm_num [steepDescentStats, mildDescentStats, zeroStats], rfl, rfl, ?_, ?_, ?_⟩ <;>
    norm_num [calculateDifficulty, steepDescentStats, mildDescentStats, zeroStats,
      Difficulty.rank, abs_of_nonpos]

/-- Counterexample to C6 as stated: on a zero-distance segment with nonzero
elevation change the source divides by the zero distance change (JavaScript
yields an infinite grade) and counts the segment as steep, so the code's
count disagrees with the guarded count the claim describes. -/
theorem getTrafficInfo_zero_distance_counterexample :
    (zeroDistancePoints.getD 1 default).distance
        = (zeroDistancePoints.getD 0 default).distance ∧
      (steepSections zeroDistancePoints).length = 1 ∧
      steepCountSpec zeroDistancePoints = 0 := by
  refine ⟨rfl, ?_, ?_⟩
  · norm_num [steepSections, steepSectionsAfter, isSteepSegment, zeroDistancePoints]
  · norm_num [steepCountSpec, steepCountSpecAfter, zeroDistancePoints]

/-- On segments with nonzero distance change the source predicate and the
spec-worded count agree. -/
lemma steepSectionsAfter_length_eq_specCount :
    ∀ (rest : List RoutePoint) (prevPoint : RoutePoint),
      List.Chain' (fun a b => b.distance - a.distance ≠ 0) (prevPoint :: rest) →
      (steepSectionsAfter prevPoint rest).length = steepCountSpecAfter prevPoint rest
  | [], _, _ => rfl
  | point :: rest, prevPoint, h => by
    rw [List.chain'_cons] at h
    rw [steepSectionsAfter, steepCountSpecAfter, List.length_append,
      steepSectionsAfter_length_eq_specCount rest point h.2]
    have hd : point.distance - prevPoint.distance ≠ 0 := h.1
    by_cases hs : |(point.elevation - prevPoint.elevation)
        / (point.distance - prevPoint.distance) * 100| > 15
    · simp [isSteepSegment, hd, hs]
    · simp [isSteepSegment, hd, hs]

/-- C6 (amended): when every consecutive pair of points has a nonzero
distance change, `getTrafficInfo` counts exactly the segments whose absolute
percent grade exceeds 15 (no division by a zero distance change can occur);
zero-distance segments with nonzero elevation change are additionally counted
as steep by the source.  The steep-sections caution message is emitted
exactly when the count exceeds 5. -/
theorem getTrafficInfo_steep_sections (routePoints : List RoutePoint) :
    (List.Chain' (fun a b => b.distance - a.distance ≠ 0) routePoints →
        (steepSections routePoints).length = steepCountSpec routePoints) ∧
      ("Multiple steep sections - allow extra time" ∈ getTrafficInfo routePoints ↔
        5 < (steepSections routePoints).length) := by
  constructor
  · intro h
    cases routePoints with
    | nil => rfl
    | cons p rest => exact steepSectionsAfter_length_eq_specCount rest p h
  · simp only [getTrafficInfo, List.mem_append]
    split_ifs with h50 h5 <;> simp_all

/-- Witness for the amended C6 at a concrete route with one moving segment. -/
theorem getTrafficInfo_steep_sections_witness :
    (steepSections [⟨0, 0, 0, 0⟩, ⟨0, 0, 5, 10⟩]).length
      = steepCountSpec [⟨0, 0, 0, 0⟩, ⟨0, 0, 5, 10⟩] :=
  (getTrafficInfo_steep_sections [⟨0, 0, 0, 0⟩, ⟨0, 0, 5, 10⟩]).1
    (List.chain'_pair.mpr (by norm_num))

/-- Counterexample to C5 as stated: a success-status response whose result
set is shorter than the input is accepted and surfaced, not treated as a
failure — the source never compares the lengths. -/
theorem getElevationData_length_mismatch_counterexample :
    getElevationData shortOkService twoLocations = Except.ok [⟨⟨0, 0⟩, 5⟩] ∧
      ([⟨⟨0, 0⟩, 5⟩] : List ElevationResult).length ≠ twoLocations.length :=
  ⟨rfl, by decide⟩

/-- C5 (amended): `getElevationData` fails with a provider error exactly when
the batch response does not carry a success status together with a non-null
result set; the error is surfaced to the caller from the single provider call
(no retry), and a success response is surfaced unchanged even when its length
differs from the number of requested locations. -/
theorem getElevationData_error_iff (service : List Coordinate → ElevationResponse)
    (locations : List Coordinate) :
    ((∃ msg, getElevationData service locations = Except.error msg) ↔
        ((service locations).status ≠ "OK" ∨ (service locations).results = none)) ∧
      ∀ results, (service locations).results = some results →
        (service locations).status = "OK" →
        getElevationData service locations = Except.ok results := by
  constructor
  · cases hres : (service locations).results with
    | none => simp [getElevationData, hres]
    | some rs =>
      by_cases hst : (service locations).status = "OK" <;>
        simp [getElevationData, hres, hst]
  · intro rs hres hst
    simp [getElevationData, hres, hst]

/-- Witness for the amended C5: the mismatched-length success response is
surfaced unchanged. -/
theorem getElevationData_error_iff_witness :
    getElevationData shortOkService twoLocations = Except.ok [⟨⟨0, 0⟩, 5⟩] :=
  (getElevationData_error_iff shortOkService twoLocations).2 [⟨⟨0, 0⟩, 5⟩] rfl rfl

/-- `createRoutePointsAfter` emits one point per remaining result. -/
lemma createRoutePointsAfter_length (dist : Coordinate → Coordinate → ℚ) :
    ∀ (rest : List ElevationResult) (prev : ElevationResult) (total : ℚ),
      (createRoutePointsAfter dist prev total rest).length = rest.length
  | [], _, _ => rfl
  | _ :: rest, _, _ => by
    rw [createRoutePointsAfter, List.length_cons, List.length_cons,
      createRoutePointsAfter_length dist rest]

/-- The point at offset `i` of the tail run carries the starting total plus
the first `i + 1` segment distances. -/
lemma createRoutePointsAfter_distance (dist : Coordinate → Coordinate → ℚ) :
    ∀ (rest : List ElevationResult) (prev : ElevationResult) (total : ℚ) (i : ℕ),
      i < rest.length →
      ((createRoutePointsAfter dist prev total rest).getD i default).distance
        = total + ((segDistancesAfter dist prev rest).take (i + 1)).sum
  | [], _, _, i, hi => absurd hi (by simp)
  | r :: rest, prev, total, 0, _ => by
    simp [createRoutePointsAfter, segDistancesAfter]
  | r :: rest, prev, total, i + 1, hi => by
    rw [createRoutePointsAfter, segDistancesAfter, List.getD_cons_succ,
      createRoutePointsAfter_distance dist rest r _ i (by simpa using hi),
      List.take_succ_cons, List.sum_cons]
    ring

/-- Every segment distance is nonnegative when the distance function is. -/
lemma segDistancesAfter_nonneg (dist : Coordinate → Coordinate → ℚ)
    (hd : ∀ a b, 0 ≤ dist a b) :
    ∀ (rest : List ElevationResult) (prev : ElevationResult), ∀ x ∈ segDistancesAfter dist prev rest, 0 ≤ x
  | [], _, _, hx => absurd hx (by simp [segDistancesAfter])
  | r :: rest, prev, x, hx => by
    rcases List.mem_cons.mp hx with h | h
    · exact h ▸ hd _ _
    · exact segDistancesAfter_nonneg dist hd rest r x h

/-- Prefix sums of a list of nonnegative rationals are monotone in the
prefix length. -/
lemma sum_take_mono :
    ∀ (l : List ℚ), (∀ x ∈ l, 0 ≤ x) → ∀ i j : ℕ, i ≤ j → (l.take i).sum ≤ (l.take j).sum
  | [], _, _, _, _ => by simp
  | x :: l, hl, 0, j, _ => by
    simp only [List.take_zero, List.sum_nil]
    exact List.sum_nonneg fun y hy => hl y (List.take_subset _ _ hy)
  | x :: l, hl, i + 1, 0, hij => absurd hij (by omega)
  | x :: l, hl, i + 1, j + 1, hij => by
    simp only [List.take_succ_cons, List.sum_cons]
    exact add_le_add_left
      (sum_take_mono l (fun y hy => hl y (List.mem_cons_of_mem x hy)) i j (by omega)) x

/-- C2: on a non-empty elevation-result sequence and a nonnegative distance
function, the produced points start at cumulative distance 0, the point at
index `i` carries exactly the sum of the first `i` segment distances, and the
cumulative distance is non-decreasing in the index. -/
theorem createRoutePoints_distance_invariant (dist : Coordinate → Coordinate → ℚ)
    (hd : ∀ a b, 0 ≤ dist a b) (r : ElevationResult) (rest : List ElevationResult) :
    ((createRoutePoints dist (r :: rest)).getD 0 default).distance = 0 ∧
      (∀ i, i < (createRoutePoints dist (r :: rest)).length →
        ((createRoutePoints dist (r :: rest)).getD i default).distance
          = ((segDistances dist (r :: rest)).take i).sum) ∧
      (∀ i j, i ≤ j → j < (createRoutePoints dist (r :: rest)).length →
        ((createRoutePoints dist (r :: rest)).getD i default).distance
          ≤ ((createRoutePoints dist (r :: rest)).getD j default).distance) := by
  have hlen : (createRoutePoints dist (r :: rest)).length = rest.length + 1 := by
    rw [createRoutePoints, List.length_cons, createRoutePointsAfter_length]
  have hformula : ∀ i, i < (createRoutePoints dist (r :: rest)).length →
      ((createRoutePoints dist (r :: rest)).getD i default).distance
        = ((segDistances dist (r :: rest)).take i).sum := by
    intro i hi
    match i with
    | 0 => simp [createRoutePoints]
    | k + 1 =>
      rw [hlen] at hi
      rw [createRoutePoints, List.getD_cons_succ, segDistances,
        createRoutePointsAfter_distance dist rest r 0 k (by omega)]
      ring
  refine ⟨hformula 0 (by omega), hformula, ?_⟩
  intro i j hij hj
  rw [hformula i (lt_of_le_of_lt hij hj), hformula j hj]
  exact sum_take_mono _ (by rw [segDistances]; exact segDistancesAfter_nonneg dist hd rest r)
    i j hij

/-- Witness for C2 with the constant distance function 1 on a two-result
sequence. -/
theorem createRoutePoints_distance_invariant_witness :
    ((createRoutePoints (fun _ _ => 1) [⟨⟨0, 0⟩, 7⟩, ⟨⟨1, 1⟩, 9⟩]).getD 0 default).distance
      = 0 :=
  (createRoutePoints_distance_invariant (fun _ _ => 1) (fun _ _ => by norm_num)
    ⟨⟨0, 0⟩, 7⟩ [⟨⟨1, 1⟩, 9⟩]).1

/-- `Math.round` fixes every integer. -/
lemma jsRound_intCast (m : ℤ) : jsRound (m : ℚ) = m := by
  rw [jsRound, Int.floor_int_add]
  have h : ⌊(1 / 2 : ℚ)⌋ = 0 := by
    rw [Int.floor_eq_zero_iff]
    constructor <;> norm_num
  omega

/-- The sampled index at output position 0 is 0. -/
lemma sampleIndex_zero (L N : ℕ) : sampleIndex L N 0 = 0 := by
  have h := jsRound_intCast 0
  simp only [Int.cast_zero] at h
  simp [sampleIndex, h]

/-- The sampled index at the final output position `N − 1` is the final
input index `L − 1`. -/
lemma sampleIndex_last (L n : ℕ) (hn : 1 ≤ n) : sampleIndex L (n + 1) n = L - 1 := by
  rw [sampleIndex]
  have hn0 : (n : ℚ) ≠ 0 := by
    have h1 : (1 : ℚ) ≤ (n : ℚ) := by exact_mod_cast hn
    linarith
  rw [show (((n + 1 : ℕ) : ℚ) - 1) = (n : ℚ) by push_cast; ring,
    mul_comm, div_mul_cancel₀ _ hn0,
    show ((L : ℚ) - 1) = (((L : ℤ) - 1 : ℤ) : ℚ) by push_cast; ring,
    jsRound_intCast]
  omega

/-- In the down-sampling branch, the output at position `i` is the input
coordinate at the rounded index-uniform position. -/
lemma sampleRoutePoints_getD (path : List Coordinate) (N i : ℕ)
    (hLN : N < path.length) (hi : i < N) :
    (sampleRoutePoints path N).getD i default
      = path.getD (sampleIndex path.length N i) default := by
  rw [sampleRoutePoints, if_neg (by omega), List.getD_eq_getElem?_getD,
    List.getElem?_map, List.getElem?_range hi]
  rfl

/-- The last index of a non-empty list retrieves its last element. -/
lemma getLast?_eq_getD_last :
    ∀ (l : List Coordinate), l ≠ [] → l.getLast? = some (l.getD (l.length - 1) default)
  | [], h => absurd rfl h
  | [a], _ => by simp
  | a :: b :: t, _ => by
    rw [List.getLast?_cons_cons, getLast?_eq_getD_last (b :: t) (List.cons_ne_nil _ _)]
    simp only [List.length_cons, Nat.add_sub_cancel, List.getD_cons_succ]

/-- C1: for a target of at least 2 samples on a non-empty path, the sampler
returns exactly `min L N` coordinates, keeps the first and last input
coordinate, returns the path unchanged when it already fits, and otherwise
selects the input coordinate at index `round(i · (L − 1) / (N − 1))` for each
output position `i`. -/
theorem sampleRoutePoints_spec (path : List Coordinate) (N : ℕ)
    (hN : 2 ≤ N) (hpath : path ≠ []) :
    (sampleRoutePoints path N).length = min path.length N ∧
      (sampleRoutePoints path N).head? = path.head? ∧
      (sampleRoutePoints path N).getLast? = path.getLast? ∧
      (path.length ≤ N → sampleRoutePoints path N = path) ∧
      (N < path.length → ∀ i, i < N →
        (sampleRoutePoints path N).getD i default
          = path.getD (sampleIndex path.length N i) default) := by
  by_cases hLN : path.length ≤ N
  · have heq : sampleRoutePoints path N = path := by rw [sampleRoutePoints, if_pos hLN]
    exact ⟨by rw [heq, Nat.min_eq_left hLN], by rw [heq], by rw [heq],
      fun _ => heq, fun hlt => absurd hlt (by omega)⟩
  · push_neg at hLN
    obtain ⟨n, rfl⟩ : ∃ n, N = n + 1 := ⟨N - 1, by omega⟩
    refine ⟨?_, ?_, ?_, fun hle => absurd hle (by omega),
      fun _ i hi => sampleRoutePoints_getD path (n + 1) i hLN hi⟩
    · rw [sampleRoutePoints, if_neg (by omega), List.length_map, List.length_range,
        Nat.min_eq_right (le_of_lt hLN)]
    · rw [sampleRoutePoints, if_neg (by omega), List.range_succ_eq_map, List.map_cons,
        List.head?_cons, sampleIndex_zero]
      cases path with
      | nil => exact absurd rfl hpath
      | cons a t => simp
    · rw [sampleRoutePoints, if_neg (by omega), List.range_succ, List.map_append]
      simp only [List.map_cons, List.map_nil, List.getLast?_concat]
      rw [sampleIndex_last path.length n (by omega),
        getLast?_eq_getD_last path hpath]

/-- Witness for C1 on a three-coordinate path sampled down to 2 points. -/
theorem sampleRoutePoints_spec_witness :
    (sampleRoutePoints [⟨0, 0⟩, ⟨1, 1⟩, ⟨2, 2⟩] 2).length
      = min ([⟨0, 0⟩, ⟨1, 1⟩, ⟨2, 2⟩] : List Coordinate).length 2 :=
  (sampleRoutePoints_spec [⟨0, 0⟩, ⟨1, 1⟩, ⟨2, 2⟩] 2 (by norm_num)
    (by simp)).1
